import Mathlib

/-!
Verification development for the course-enrollment monitoring repository.

The frontend's API layer (`types.ts`, `mockAdapter.ts`, `AddCourseModal`) is
embedded shallowly: the mock adapter's in-memory state becomes an explicit
`MockState` record, its async methods become pure state transformers, and
`Math.random` becomes an explicit stream of rationals in `[0, 1)`.  The
backend components the spec describes (availability detector, upstream
client cache, notification dispatcher) are absent from the repository and
are modelled from the spec's words in their own namespaces.
-/

/-- `EnrollmentStatus` from `types.ts`: `'OPEN' | 'CLOSED' | 'WAITLIST' | 'CANCELLED'`. -/
inductive EnrollmentStatus where
  | OPEN
  | CLOSED
  | WAITLIST
  | CANCELLED
deriving DecidableEq, Repr, BEq

/-- `MonitoredCourse` from `types.ts`.  `Date` values are modelled as
millisecond timestamps (`Nat`); the optional `lastChecked` becomes an
`Option Nat`. -/
structure MonitoredCourse where
  id : String
  term : String
  subject : String
  courseNumber : String
  sections : List String
  notifyOnOpen : Bool
  notifyOnWaitlist : Bool
  checkInterval : Nat
  active : Bool
  lastChecked : Option Nat
  createdAt : Nat
deriving DecidableEq, Repr

/-- The field names of the `MonitoredCourse` interface in `types.ts`,
in declaration order. -/
def monitoredCourseFieldNames : List String :=
  ["id", "term", "subject", "courseNumber", "sections", "notifyOnOpen",
   "notifyOnWaitlist", "checkInterval", "active", "lastChecked", "createdAt"]

/-- `Omit<MonitoredCourse, 'id' | 'createdAt' | 'lastChecked'>`: the argument
type of `addMonitoredCourse`. -/
structure NewMonitoredCourse where
  term : String
  subject : String
  courseNumber : String
  sections : List String
  notifyOnOpen : Bool
  notifyOnWaitlist : Bool
  checkInterval : Nat
  active : Bool
deriving DecidableEq, Repr

/-- `Partial<MonitoredCourse>`: every field optional; an absent field is
`none`.  (`lastChecked` is itself optional, hence `Option (Option Nat)`.) -/
structure MonitoredCourseUpdate where
  id : Option String := none
  term : Option String := none
  subject : Option String := none
  courseNumber : Option String := none
  sections : Option (List String) := none
  notifyOnOpen : Option Bool := none
  notifyOnWaitlist : Option Bool := none
  checkInterval : Option Nat := none
  active : Option Bool := none
  lastChecked : Option (Option Nat) := none
  createdAt : Option Nat := none
deriving DecidableEq, Repr

/-- The spread `{ ...course, ...updates }` in
`MockApiAdapter.updateMonitoredCourse`: fields present in `updates`
override, all others are kept. -/
def applyUpdate (c : MonitoredCourse) (u : MonitoredCourseUpdate) : MonitoredCourse :=
  { id := u.id.getD c.id
    term := u.term.getD c.term
    subject := u.subject.getD c.subject
    courseNumber := u.courseNumber.getD c.courseNumber
    sections := u.sections.getD c.sections
    notifyOnOpen := u.notifyOnOpen.getD c.notifyOnOpen
    notifyOnWaitlist := u.notifyOnWaitlist.getD c.notifyOnWaitlist
    checkInterval := u.checkInterval.getD c.checkInterval
    active := u.active.getD c.active
    lastChecked := u.lastChecked.getD c.lastChecked
    createdAt := u.createdAt.getD c.createdAt }

/-- `NotificationPreferences.email` entry from `types.ts`. -/
structure EmailPrefs where
  enabled : Bool
  address : String
deriving DecidableEq, Repr

/-- `NotificationPreferences.sms` entry from `types.ts`. -/
structure SmsPrefs where
  enabled : Bool
  phoneNumber : String
deriving DecidableEq, Repr

/-- `NotificationPreferences.webhook` entry from `types.ts`. -/
structure WebhookPrefs where
  enabled : Bool
  url : String
deriving DecidableEq, Repr

/-- `NotificationPreferences` from `types.ts`; each channel block is
optional. -/
structure NotificationPreferences where
  email : Option EmailPrefs
  sms : Option SmsPrefs
  webhook : Option WebhookPrefs
deriving DecidableEq, Repr

/-- The private in-memory state of `MockApiAdapter`:
`mockMonitoredCourses` and `mockPreferences`. -/
structure MockState where
  mockMonitoredCourses : List MonitoredCourse
  mockPreferences : NotificationPreferences
deriving DecidableEq, Repr

/-- Replace the first course whose `id` matches, applying the update spread;
`none` when no course matches.  This is `findIndex` followed by assignment
at the found index in `MockApiAdapter.updateMonitoredCourse`, with the
updated course also returned (the method's return value). -/
def updateList (l : List MonitoredCourse) (courseId : String)
    (u : MonitoredCourseUpdate) : Option (MonitoredCourse × List MonitoredCourse) :=
  match l with
  | [] => none
  | c :: rest =>
      if c.id = courseId then
        some (applyUpdate c u, applyUpdate c u :: rest)
      else
        (updateList rest courseId u).map (fun p => (p.1, c :: p.2))

/-- Remove the first course whose `id` matches; `none` when no course
matches.  This is `findIndex` followed by `splice(index, 1)` in
`MockApiAdapter.removeMonitoredCourse`. -/
def removeList (l : List MonitoredCourse) (courseId : String) :
    Option (List MonitoredCourse) :=
  match l with
  | [] => none
  | c :: rest =>
      if c.id = courseId then some rest
      else (removeList rest courseId).map (fun r => c :: r)

/-- `MockApiAdapter.updateMonitoredCourse(id, updates)`: throws
`'Course not found'` when `findIndex` returns `-1`, otherwise overwrites
the found entry with the spread and returns it.  The state component of the
result is the adapter state after the call (unchanged on the error path,
since the throw happens before any mutation). -/
def updateMonitoredCourse (s : MockState) (courseId : String)
    (u : MonitoredCourseUpdate) : Except String MonitoredCourse × MockState :=
  match updateList s.mockMonitoredCourses courseId u with
  | none => (Except.error "Course not found", s)
  | some (c, l) => (Except.ok c, { s with mockMonitoredCourses := l })

/-- `MockApiAdapter.removeMonitoredCourse(id)`: throws `'Course not found'`
when `findIndex` returns `-1`, otherwise splices the entry out. -/
def removeMonitoredCourse (s : MockState) (courseId : String) :
    Except String Unit × MockState :=
  match removeList s.mockMonitoredCourses courseId with
  | none => (Except.error "Course not found", s)
  | some l => (Except.ok (), { s with mockMonitoredCourses := l })

/-- `MockApiAdapter.addMonitoredCourse(course)`: builds the new record with
`id = String(Date.now())`, `createdAt = new Date()`, `lastChecked =
undefined`, pushes it and returns it.  `now` is the `Date.now()` value in
milliseconds. -/
def addMonitoredCourse (s : MockState) (course : NewMonitoredCourse)
    (now : Nat) : MonitoredCourse × MockState :=
  let newCourse : MonitoredCourse :=
    { id := toString now
      term := course.term
      subject := course.subject
      courseNumber := course.courseNumber
      sections := course.sections
      notifyOnOpen := course.notifyOnOpen
      notifyOnWaitlist := course.notifyOnWaitlist
      checkInterval := course.checkInterval
      active := course.active
      lastChecked := none
      createdAt := now }
  (newCourse, { s with mockMonitoredCourses := s.mockMonitoredCourses ++ [newCourse] })

/-- The `<option>` values of the Check Interval `<select>` in
`AddCourseModal` (milliseconds): 3, 5, 10 and 15 minutes. -/
def checkIntervalOptions : List Nat := [180000, 300000, 600000, 900000]

/-- The spec's configured minimum `checkInterval` floor (60 s), in
milliseconds to match the code's units. -/
def minCheckInterval : Nat := 60000

/-- `EnrollmentSnapshot` from `types.ts`.  Timestamps are millisecond
values (`Int`, since the mock subtracts offsets from `now`). -/
structure EnrollmentSnapshot where
  id : String
  courseMonitorId : String
  totalSeats : Nat
  openSeats : Nat
  enrolledSeats : Nat
  waitlistTotal : Option Nat
  waitlistOpen : Option Nat
  status : EnrollmentStatus
  timestamp : Int
deriving DecidableEq, Repr

/-- One snapshot generated inside the loop of
`MockApiAdapter.getEnrollmentHistory`.  `rand` is the `Math.random` stream
(values in `[0, 1)`), consumed at indices `k`, `k+1`, `k+2`, `k+3` in the
evaluation order of the object literal: `openSeats`
(`Math.floor(Math.random() * 5)`), `enrolledSeats`
(`30 - Math.floor(Math.random() * 5)`), `waitlistOpen`
(`Math.floor(Math.random() * 3)`), `status` (`Math.random() > 0.5`).
`i` is the loop counter (10 down to 0). -/
def mkHistorySnapshot (courseMonitorId : String) (nowMs : Int)
    (rand : Nat → ℚ) (k : Nat) (i : Nat) : EnrollmentSnapshot :=
  { id := toString i
    courseMonitorId := courseMonitorId
    totalSeats := 30
    openSeats := (Rat.floor (rand k * 5)).toNat
    enrolledSeats := (30 - Rat.floor (rand (k + 1) * 5)).toNat
    waitlistTotal := some 10
    waitlistOpen := some (Rat.floor (rand (k + 2) * 3)).toNat
    status := if rand (k + 3) > 1 / 2 then .OPEN else .CLOSED
    timestamp := nowMs - (i : Int) * 5 * 60 * 1000 }

/-- `MockApiAdapter.getEnrollmentHistory(courseMonitorId)`: eleven
snapshots for `i = 10, 9, …, 0` at 5-minute intervals before `nowMs`, each
consuming four `Math.random` draws. -/
def getEnrollmentHistory (courseMonitorId : String) (nowMs : Int)
    (rand : Nat → ℚ) : List EnrollmentSnapshot :=
  (List.range 11).map (fun j => mkHistorySnapshot courseMonitorId nowMs rand (4 * j) (10 - j))

/-- `MockApiAdapter.getNotificationPreferences()`: returns the stored
preferences. -/
def getNotificationPreferences (s : MockState) : NotificationPreferences :=
  s.mockPreferences

/-- `MockApiAdapter.updateNotificationPreferences(preferences)`: stores the
argument and returns the stored value. -/
def updateNotificationPreferences (s : MockState) (p : NotificationPreferences) :
    NotificationPreferences × MockState :=
  let s2 : MockState := { s with mockPreferences := p }
  (s2.mockPreferences, s2)

namespace Detector

/-- `NotificationEvent.kind` enum from the spec's data model (§3). -/
inductive EventKind where
  | SEAT_OPENED
  | WAITLIST_OPENED
  | SEAT_COUNT_INCREASED
  | STATUS_CHANGED
deriving DecidableEq, Repr

/-- Modelled from the spec: the spec's `EnrollmentSnapshot` (§3), the input
of the Availability Detector, which is absent from the repository (the
backend is unimplemented).  Fields: monitorID, sectionID, seat counts,
optional waitlist counts, status, timestamp. -/
structure Snapshot where
  monitorID : String
  sectionID : String
  totalSeats : Nat
  openSeats : Nat
  enrolledSeats : Nat
  waitlistTotal : Option Nat
  waitlistOpen : Option Nat
  status : EnrollmentStatus
  timestamp : Int
deriving DecidableEq, Repr

/-- Modelled from the spec: the notification preferences consulted by the
detector (`notifyOnOpen`, `notifyOnWaitlist` per §3/§4.2). -/
structure NotificationPrefs where
  notifyOnOpen : Bool
  notifyOnWaitlist : Bool
deriving DecidableEq, Repr

/-- Modelled from the spec: `NotificationEvent` (§3). `generatedAt` is
taken to be the current snapshot's timestamp. -/
structure NotificationEvent where
  monitorID : String
  sectionID : String
  kind : EventKind
  previousSnapshot : Snapshot
  currentSnapshot : Snapshot
  generatedAt : Int
deriving DecidableEq, Repr

/-- Modelled from the spec: the Availability Detector contract
`detect(previous | nil, current, prefs) -> []NotificationEvent` (§4.2),
absent from the repository.  If `previous` is nil, no events.  Otherwise
the four transition rules fire independently in priority order:
1. CLOSED→OPEN or CANCELLED→OPEN with `notifyOnOpen` ⇒ SEAT_OPENED;
2. waitlistOpen 0-or-absent becoming positive with `notifyOnWaitlist` ⇒
   WAITLIST_OPENED;
3. openSeats strictly increased with current status OPEN and
   `notifyOnOpen` ⇒ SEAT_COUNT_INCREASED;
4. any other status change not covered above ⇒ STATUS_CHANGED. -/
def detect (previous : Option Snapshot) (current : Snapshot)
    (prefs : NotificationPrefs) : List NotificationEvent :=
  match previous with
  | none => []
  | some prev =>
      let mk (k : EventKind) : NotificationEvent :=
        { monitorID := current.monitorID
          sectionID := current.sectionID
          kind := k
          previousSnapshot := prev
          currentSnapshot := current
          generatedAt := current.timestamp }
      let seatOpened : Bool :=
        (prev.status == .CLOSED || prev.status == .CANCELLED)
          && current.status == .OPEN && prefs.notifyOnOpen
      let waitlistOpened : Bool :=
        prev.waitlistOpen.getD 0 == 0
          && decide (0 < current.waitlistOpen.getD 0)
          && prefs.notifyOnWaitlist
      let seatCountIncreased : Bool :=
        decide (prev.openSeats < current.openSeats)
          && current.status == .OPEN && prefs.notifyOnOpen
      let statusChanged : Bool :=
        prev.status != current.status && !seatOpened
      (if seatOpened then [mk .SEAT_OPENED] else [])
        ++ (if waitlistOpened then [mk .WAITLIST_OPENED] else [])
        ++ (if seatCountIncreased then [mk .SEAT_COUNT_INCREASED] else [])
        ++ (if statusChanged then [mk .STATUS_CHANGED] else [])

end Detector

namespace UpstreamClient

/-- Modelled from the spec: the Upstream Client's cache key
`(term, subject, courseNumber)` (§4.1). -/
structure CacheKey where
  term : String
  subject : String
  courseNumber : String
deriving DecidableEq, Repr

/-- Modelled from the spec: the Upstream Client's cache with a fixed TTL
(§4.1), absent from the repository.  The cache is a list of
(key, storedAt, value) entries, newest first; an entry is live while
`now < storedAt + ttl`.  `fetchWithCache` returns the value, the updated
cache, and the number of network calls made (0 on a hit, 1 on a miss; the
`upstream` function stands for one network call and is assumed to
succeed, matching the claim's successful-fetch scenario). -/
def fetchWithCache {α : Type} (ttl : Nat) (upstream : CacheKey → α)
    (cache : List (CacheKey × Nat × α)) (k : CacheKey) (now : Nat) :
    α × List (CacheKey × Nat × α) × Nat :=
  match cache.find? (fun e => decide (e.1 = k)) with
  | some (_, t, v) =>
      if now < t + ttl then (v, cache, 0)
      else
        let v2 := upstream k
        (v2, (k, now, v2) :: cache, 1)
  | none =>
      let v2 := upstream k
      (v2, (k, now, v2) :: cache, 1)

end UpstreamClient

namespace Dispatcher

/-- Modelled from the spec: the outcome of delivery on one channel.
`delivered n` is a SUCCESS DeliveryAttempt with attemptNumber `n`;
`exhausted` is EXHAUSTED after the retry budget is spent; `misconfigured`
is the `ChannelMisconfigured` fast failure; `skipped` is a disabled
channel, never attempted. -/
inductive ChannelOutcome where
  | delivered (attemptNumber : Nat)
  | exhausted
  | misconfigured
  | skipped
deriving DecidableEq, Repr

/-- Modelled from the spec: one channel's configuration — enabled flag and
endpoint (email address, phone number or webhook URL); an empty endpoint
means none is configured. -/
structure ChannelConfig where
  enabled : Bool
  endpoint : String
deriving DecidableEq, Repr

/-- Modelled from the spec: the result of dispatching one event on one
channel: the outcome, the number of transport `send` invocations made, and
the number of retry-budget attempts consumed. -/
structure ChannelResult where
  outcome : ChannelOutcome
  transportSends : Nat
  attemptsUsed : Nat
deriving DecidableEq, Repr

/-- Modelled from the spec: the per-channel retry loop (§4.3, up to
`fuel` attempts).  `transport n` is the success of the transport `send` on
attempt number `n`.  Returns the outcome and the number of sends made. -/
def runAttempts (transport : Nat → Bool) : Nat → Nat → ChannelOutcome × Nat
  | 0, _ => (.exhausted, 0)
  | fuel + 1, n =>
      if transport n then (.delivered n, 1)
      else
        let r := runAttempts transport fuel (n + 1)
        (r.1, r.2 + 1)

/-- Modelled from the spec: the Notification Dispatcher's per-channel
delivery (§4.3), absent from the repository.  A disabled channel is
skipped; an enabled channel with no configured endpoint fails fast with
`ChannelMisconfigured`, making no transport send and consuming no retry
budget; otherwise up to 3 attempts are made. -/
def deliverChannel (cfg : ChannelConfig) (transport : Nat → Bool) : ChannelResult :=
  if cfg.enabled = false then ⟨.skipped, 0, 0⟩
  else if cfg.endpoint = "" then ⟨.misconfigured, 0, 0⟩
  else
    let r := runAttempts transport 3 1
    ⟨r.1, r.2, r.2⟩

end Dispatcher

/-- A sample stored course used to instantiate theorems on concrete data. -/
def demoCourse : MonitoredCourse :=
  { id := "1"
    term := "1252"
    subject := "COMP SCI"
    courseNumber := "400"
    sections := ["001"]
    notifyOnOpen := true
    notifyOnWaitlist := false
    checkInterval := 300000
    active := true
    lastChecked := none
    createdAt := 0 }

/-- Empty notification preferences, as in the adapter's initial state but
with the optional channel blocks absent. -/
def demoPrefs : NotificationPreferences := ⟨none, none, none⟩

/-- A sample adapter state holding one monitored course. -/
def demoState : MockState := ⟨[demoCourse], demoPrefs⟩

/-- A patch toggling `active`, as the dashboard's pause button sends. -/
def demoUpdate : MonitoredCourseUpdate := { active := some false }

/-- `demoCourse` after applying `demoUpdate`. -/
def demoUpdatedCourse : MonitoredCourse := { demoCourse with active := false }

/-- A new-course request with a `checkInterval` offered by the
`AddCourseModal` select (5 minutes). -/
def demoNewCourse : NewMonitoredCourse :=
  { term := "1252"
    subject := "COMP SCI"
    courseNumber := "400"
    sections := ["001"]
    notifyOnOpen := true
    notifyOnWaitlist := false
    checkInterval := 300000
    active := true }

/-- A new-course request with `checkInterval = 0`, below any floor. -/
def zeroIntervalCourse : NewMonitoredCourse :=
  { demoNewCourse with checkInterval := 0 }

/-- A `Math.random` stream whose first two draws of every snapshot are
`0.4` and `0.8`, well inside `[0, 1)`. -/
def demoRand : Nat → ℚ := fun n =>
  if n % 4 = 0 then 2 / 5 else if n % 4 = 1 then 4 / 5 else 0

/-- The frame property of one `updateMonitoredCourse` call that returned
`(Except.ok c, s2)`: some stored course `old` matches the id, `c` is `old`
with the update spread applied, the new list is the old list with only
that position replaced (same length, every other position and the
preferences untouched), and every field of `c` not named in the update
equals the corresponding field of `old`. -/
def UpdateFrameSpec (s : MockState) (courseId : String) (u : MonitoredCourseUpdate)
    (c : MonitoredCourse) (s2 : MockState) : Prop :=
  ∃ i old,
    s.mockMonitoredCourses[i]? = some old ∧
    old.id = courseId ∧
    c = applyUpdate old u ∧
    s2.mockMonitoredCourses = s.mockMonitoredCourses.set i c ∧
    s2.mockMonitoredCourses.length = s.mockMonitoredCourses.length ∧
    (∀ j, j ≠ i → s2.mockMonitoredCourses[j]? = s.mockMonitoredCourses[j]?) ∧
    s2.mockPreferences = s.mockPreferences ∧
    (u.id = none → c.id = old.id) ∧
    (u.term = none → c.term = old.term) ∧
    (u.subject = none → c.subject = old.subject) ∧
    (u.courseNumber = none → c.courseNumber = old.courseNumber) ∧
    (u.sections = none → c.sections = old.sections) ∧
    (u.notifyOnOpen = none → c.notifyOnOpen = old.notifyOnOpen) ∧
    (u.notifyOnWaitlist = none → c.notifyOnWaitlist = old.notifyOnWaitlist) ∧
    (u.checkInterval = none → c.checkInterval = old.checkInterval) ∧
    (u.active = none → c.active = old.active) ∧
    (u.lastChecked = none → c.lastChecked = old.lastChecked) ∧
    (u.createdAt = none → c.createdAt = old.createdAt)

/-- The not-found behaviour of `updateMonitoredCourse` and
`removeMonitoredCourse` on state `s`: each throws `'Course not found'`
exactly when no stored course has the id, and on that error path the state
is unchanged. -/
def NotFoundAtomicSpec (s : MockState) (courseId : String)
    (u : MonitoredCourseUpdate) : Prop :=
  (((updateMonitoredCourse s courseId u).1 = Except.error "Course not found" ↔
      ∀ c ∈ s.mockMonitoredCourses, c.id ≠ courseId) ∧
    ((updateMonitoredCourse s courseId u).1 = Except.error "Course not found" →
      (updateMonitoredCourse s courseId u).2 = s)) ∧
  (((removeMonitoredCourse s courseId).1 = Except.error "Course not found" ↔
      ∀ c ∈ s.mockMonitoredCourses, c.id ≠ courseId) ∧
    ((removeMonitoredCourse s courseId).1 = Except.error "Course not found" →
      (removeMonitoredCourse s courseId).2 = s))

/-- The cache property of two `fetchWithCache` calls for one key at times
`t0` and `t1`, the second fed the first's output cache: at most one
network call is made in total, and — when the key is not initially
cached, so the first call is the one that populates the entry — the
second call returns exactly the value the first call fetched and cached,
making no network call of its own. -/
def CacheSingleCallSpec {α : Type} (ttl : Nat)
    (upstream : UpstreamClient.CacheKey → α)
    (cache : List (UpstreamClient.CacheKey × Nat × α))
    (k : UpstreamClient.CacheKey) (t0 t1 : Nat) : Prop :=
  ((UpstreamClient.fetchWithCache ttl upstream cache k t0).2.2 +
    (UpstreamClient.fetchWithCache ttl upstream
      (UpstreamClient.fetchWithCache ttl upstream cache k t0).2.1 k t1).2.2 ≤ 1) ∧
  (cache.find? (fun e => decide (e.1 = k)) = none →
    (UpstreamClient.fetchWithCache ttl upstream
        (UpstreamClient.fetchWithCache ttl upstream cache k t0).2.1 k t1).1 =
      (UpstreamClient.fetchWithCache ttl upstream cache k t0).1 ∧
    (UpstreamClient.fetchWithCache ttl upstream
        (UpstreamClient.fetchWithCache ttl upstream cache k t0).2.1 k t1).2.2 = 0)

/-- C1: with a nil previous snapshot, `detect` returns an empty event
list, for every current snapshot and every preference setting. -/
theorem C1_detect_nil_previous_empty (current : Detector.Snapshot)
    (prefs : Detector.NotificationPrefs) :
    Detector.detect none current prefs = [] := rfl

/-- C10: notification preferences round-trip — `updateNotificationPreferences p`
returns `p`, and a subsequent `getNotificationPreferences` returns exactly `p`. -/
theorem C10_preferences_round_trip (s : MockState) (p : NotificationPreferences) :
    (updateNotificationPreferences s p).1 = p ∧
      getNotificationPreferences (updateNotificationPreferences s p).2 = p :=
  ⟨rfl, rfl⟩

/-- C7 counterexample: the `MonitoredCourse` record in `types.ts` carries
no `lastSuccessfulCheck` field, so the claim that the monitor record
carries both `lastChecked` and a distinct `lastSuccessfulCheck` is false. -/
theorem C7_counterexample_no_lastSuccessfulCheck :
    "lastSuccessfulCheck" ∉ monitoredCourseFieldNames := by decide

/-- C7 (amended): the monitor record carries `lastChecked` but no distinct
`lastSuccessfulCheck` field. -/
theorem C7_record_has_only_lastChecked :
    "lastChecked" ∈ monitoredCourseFieldNames ∧
      "lastSuccessfulCheck" ∉ monitoredCourseFieldNames := by decide

/-- C6: an enabled channel with no configured endpoint fails immediately
with `ChannelMisconfigured`, makes no transport send and consumes no retry
budget. -/
theorem C6_misconfigured_fails_fast (cfg : Dispatcher.ChannelConfig)
    (transport : Nat → Bool) (h1 : cfg.enabled = true) (h2 : cfg.endpoint = "") :
    Dispatcher.deliverChannel cfg transport =
      ⟨Dispatcher.ChannelOutcome.misconfigured, 0, 0⟩ := by
  simp [Dispatcher.deliverChannel, h1, h2]

/-- C6 witness: a concrete enabled sms channel with an empty phone number,
against a transport that would always succeed. -/
theorem C6_misconfigured_fails_fast_witness :
    Dispatcher.deliverChannel ⟨true, ""⟩ (fun _ => true) =
      ⟨Dispatcher.ChannelOutcome.misconfigured, 0, 0⟩ :=
  C6_misconfigured_fails_fast ⟨true, ""⟩ (fun _ => true) rfl rfl

/-- C2 counterexample: an `updates` object that carries an `id` field
overwrites the stored course's `id` — the spread in
`updateMonitoredCourse` does not protect it.  The stored ids go from
`["1"]` to `["2"]`. -/
theorem C2_counterexample_id_overwritten :
    demoState.mockMonitoredCourses.map MonitoredCourse.id = ["1"] ∧
      (updateMonitoredCourse demoState "1"
          { id := some "2" }).2.mockMonitoredCourses.map MonitoredCourse.id = ["2"] := by
  constructor
  · rfl
  · rfl

/-- C3 counterexample: `addMonitoredCourse` performs no validation — a
request with `checkInterval = 0` is stored as-is, not rejected, violating
the 60 s floor. -/
theorem C3_counterexample_zero_interval_stored :
    ((addMonitoredCourse ⟨[], demoPrefs⟩ zeroIntervalCourse 5).2.mockMonitoredCourses.map
        MonitoredCourse.checkInterval = [0]) ∧ ¬ minCheckInterval ≤ 0 := by
  constructor
  · rfl
  · decide

/-- C3 (amended): the adapter stores `checkInterval` exactly as given with
no validation; the ≥ 60 s floor holds for every course whose interval is
one of the `AddCourseModal` options (3/5/10/15 minutes). -/
theorem C3_ui_options_respect_floor (s : MockState) (course : NewMonitoredCourse)
    (now : Nat) (h : course.checkInterval ∈ checkIntervalOptions) :
    (addMonitoredCourse s course now).1.checkInterval = course.checkInterval ∧
      minCheckInterval ≤ (addMonitoredCourse s course now).1.checkInterval := by
  refine ⟨rfl, ?_⟩
  have hc : (addMonitoredCourse s course now).1.checkInterval = course.checkInterval := rfl
  rw [hc]
  simp only [checkIntervalOptions, List.mem_cons, List.not_mem_nil, or_false] at h
  rcases h with h | h | h | h <;> rw [h] <;> decide

/-- C3 witness: adding `demoNewCourse` (5-minute interval, a modal option)
stores that interval, which meets the floor. -/
theorem C3_ui_options_respect_floor_witness :
    (addMonitoredCourse demoState demoNewCourse 5).1.checkInterval =
        demoNewCourse.checkInterval ∧
      minCheckInterval ≤ (addMonitoredCourse demoState demoNewCourse 5).1.checkInterval :=
  C3_ui_options_respect_floor demoState demoNewCourse 5 (by decide)

/-- C4 (code bug evaluation): with the `Math.random` stream `demoRand`
(draws 0.4 and 0.8 for the two seat fields), `getEnrollmentHistory`
returns a snapshot with `openSeats = 2`, `enrolledSeats = 26`,
`totalSeats = 30`, so `enrolledSeats + openSeats ≠ totalSeats` — the two
seat counts come from independent random draws and need not sum to the
total. -/
theorem C4_history_violates_seat_sum :
    ∃ s ∈ getEnrollmentHistory "m1" 0 demoRand,
      s.enrolledSeats + s.openSeats ≠ s.totalSeats := by
  have hfl : ∀ q : ℚ, Rat.floor q = ⌊q⌋ := fun q => by
    rw [Rat.floor_def', Rat.floor_def]
  refine ⟨mkHistorySnapshot "m1" 0 demoRand (4 * 0) (10 - 0), ?_, ?_⟩
  · unfold getEnrollmentHistory
    exact List.mem_map.mpr ⟨0, by simp, rfl⟩
  · have h0 : demoRand (4 * 0) * 5 = 2 := by norm_num [demoRand]
    have h1 : demoRand (4 * 0 + 1) * 5 = 4 := by norm_num [demoRand]
    simp only [mkHistorySnapshot, h0, h1, hfl]
    norm_num
    decide

/-- Helper: `updateList` returns `none` exactly when no course matches. -/
theorem updateList_eq_none_iff (l : List MonitoredCourse) (courseId : String)
    (u : MonitoredCourseUpdate) :
    updateList l courseId u = none ↔ ∀ c ∈ l, c.id ≠ courseId := by
  induction l with
  | nil => simp [updateList]
  | cons a rest ih =>
      by_cases hid : a.id = courseId
      · simp [updateList, hid]
      · simp [updateList, hid, Option.map_eq_none', ih]

/-- Helper: `removeList` returns `none` exactly when no course matches. -/
theorem removeList_eq_none_iff (l : List MonitoredCourse) (courseId : String) :
    removeList l courseId = none ↔ ∀ c ∈ l, c.id ≠ courseId := by
  induction l with
  | nil => simp [removeList]
  | cons a rest ih =>
      by_cases hid : a.id = courseId
      · simp [removeList, hid]
      · simp [removeList, hid, Option.map_eq_none', ih]

/-- Helper: a successful `updateList` replaces exactly the first matching
position. -/
theorem updateList_spec (courseId : String) (u : MonitoredCourseUpdate) :
    ∀ (l : List MonitoredCourse) (c : MonitoredCourse) (l2 : List MonitoredCourse),
      updateList l courseId u = some (c, l2) →
      ∃ i old, l[i]? = some old ∧ old.id = courseId ∧ c = applyUpdate old u ∧
        l2 = l.set i c := by
  intro l
  induction l with
  | nil => intro c l2 h; simp [updateList] at h
  | cons a rest ih =>
      intro c l2 h
      by_cases hid : a.id = courseId
      · simp only [updateList, if_pos hid, Option.some.injEq, Prod.mk.injEq] at h
        obtain ⟨hc, hl⟩ := h
        refine ⟨0, a, by simp, hid, hc.symm, ?_⟩
        simp [← hl, hc]
      · simp only [updateList, if_neg hid, Option.map_eq_some', Prod.mk.injEq] at h
        obtain ⟨p, hp, hc, hl⟩ := h
        obtain ⟨i, old, hio, hoid, hcu, hset⟩ := ih p.1 p.2 hp
        refine ⟨i + 1, old, by simpa using hio, hoid, hc ▸ hcu, ?_⟩
        rw [← hl, hset, ← hc]
        rfl

/-- Helper: when the update object carries no `id` field, `updateList`
keeps the stored ids unchanged. -/
theorem updateList_map_id (courseId : String) (u : MonitoredCourseUpdate)
    (h : u.id = none) :
    ∀ (l : List MonitoredCourse) (c : MonitoredCourse) (l2 : List MonitoredCourse),
      updateList l courseId u = some (c, l2) →
      l2.map MonitoredCourse.id = l.map MonitoredCourse.id := by
  intro l
  induction l with
  | nil => intro c l2 hx; simp [updateList] at hx
  | cons a rest ih =>
      intro c l2 hx
      by_cases hid : a.id = courseId
      · simp only [updateList, if_pos hid, Option.some.injEq, Prod.mk.injEq] at hx
        obtain ⟨hc, hl⟩ := hx
        rw [← hl]
        simp [applyUpdate, h]
      · simp only [updateList, if_neg hid, Option.map_eq_some', Prod.mk.injEq] at hx
        obtain ⟨p, hp, hc, hl⟩ := hx
        rw [← hl]
        simp [ih p.1 p.2 hp]

/-- C2 (amended): `updateMonitoredCourse` preserves every stored course's
`id` whenever the `updates` object does not itself carry an `id` field —
the spread otherwise overwrites it. -/
theorem C2_id_immutable_without_id_patch (s : MockState) (courseId : String)
    (u : MonitoredCourseUpdate) (h : u.id = none) :
    (updateMonitoredCourse s courseId u).2.mockMonitoredCourses.map MonitoredCourse.id
      = s.mockMonitoredCourses.map MonitoredCourse.id := by
  unfold updateMonitoredCourse
  cases hr : updateList s.mockMonitoredCourses courseId u with
  | none => rfl
  | some p =>
      obtain ⟨cc, l2⟩ := p
      exact updateList_map_id courseId u h s.mockMonitoredCourses cc l2 hr

/-- C2 witness: patching `active` on the sample state leaves the stored
ids unchanged. -/
theorem C2_id_immutable_without_id_patch_witness :
    (updateMonitoredCourse demoState "1" demoUpdate).2.mockMonitoredCourses.map
        MonitoredCourse.id
      = demoState.mockMonitoredCourses.map MonitoredCourse.id :=
  C2_id_immutable_without_id_patch demoState "1" demoUpdate rfl

/-- C8: `updateMonitoredCourse` and `removeMonitoredCourse` throw
`'Course not found'` exactly when no stored course has the requested id,
and the failed operation leaves the adapter state unchanged. -/
theorem C8_not_found_error_atomic (s : MockState) (courseId : String)
    (u : MonitoredCourseUpdate) : NotFoundAtomicSpec s courseId u := by
  unfold NotFoundAtomicSpec
  constructor
  · unfold updateMonitoredCourse
    cases hr : updateList s.mockMonitoredCourses courseId u with
    | none =>
        refine ⟨⟨fun _ => (updateList_eq_none_iff _ _ _).mp hr, fun _ => rfl⟩, fun _ => rfl⟩
    | some p =>
        obtain ⟨cc, l2⟩ := p
        refine ⟨⟨fun hx => absurd hx (by simp), fun hall => ?_⟩, fun hx => absurd hx (by simp)⟩
        rw [(updateList_eq_none_iff _ _ _).mpr hall] at hr
        exact Option.noConfusion hr
  · unfold removeMonitoredCourse
    cases hr : removeList s.mockMonitoredCourses courseId with
    | none =>
        refine ⟨⟨fun _ => (removeList_eq_none_iff _ _).mp hr, fun _ => rfl⟩, fun _ => rfl⟩
    | some l =>
        refine ⟨⟨fun hx => absurd hx (by simp), fun hall => ?_⟩, fun hx => absurd hx (by simp)⟩
        rw [(removeList_eq_none_iff _ _).mpr hall] at hr
        exact Option.noConfusion hr

/-- C8 witness: the not-found specification instantiated on the sample
state, an id it stores, and the pause patch. -/
theorem C8_not_found_error_atomic_witness : NotFoundAtomicSpec demoState "1" demoUpdate :=
  C8_not_found_error_atomic demoState "1" demoUpdate

/-- C9: a successful `updateMonitoredCourse` changes only the fields named
in the update of the one matching course; every unnamed field, every other
stored course, the list's length and order, and the preferences are
unchanged. -/
theorem C9_update_frame (s : MockState) (courseId : String)
    (u : MonitoredCourseUpdate) (c : MonitoredCourse) (s2 : MockState)
    (h : updateMonitoredCourse s courseId u = (Except.ok c, s2)) :
    UpdateFrameSpec s courseId u c s2 := by
  unfold updateMonitoredCourse at h
  cases hr : updateList s.mockMonitoredCourses courseId u with
  | none => rw [hr] at h; simp at h
  | some p =>
      obtain ⟨cc, l2⟩ := p
      rw [hr] at h
      simp only [Prod.mk.injEq, Except.ok.injEq] at h
      obtain ⟨hcc, hs2⟩ := h
      obtain ⟨i, old, hio, hoid, hcu, hset⟩ := updateList_spec courseId u _ _ _ hr
      rw [hcc] at hcu hset
      refine ⟨i, old, hio, hoid, hcu, ?_, ?_, ?_, ?_, ?_, ?_, ?_, ?_, ?_, ?_, ?_, ?_, ?_, ?_, ?_⟩
      · rw [← hs2]; exact hset
      · rw [← hs2, hset]; simp
      · intro j hj
        rw [← hs2, hset]
        simp only []
        exact List.getElem?_set_ne (fun hx => hj hx.symm)
      · rw [← hs2]
      · intro hf; rw [hcu]; simp [applyUpdate, hf]
      · intro hf; rw [hcu]; simp [applyUpdate, hf]
      · intro hf; rw [hcu]; simp [applyUpdate, hf]
      · intro hf; rw [hcu]; simp [applyUpdate, hf]
      · intro hf; rw [hcu]; simp [applyUpdate, hf]
      · intro hf; rw [hcu]; simp [applyUpdate, hf]
      · intro hf; rw [hcu]; simp [applyUpdate, hf]
      · intro hf; rw [hcu]; simp [applyUpdate, hf]
      · intro hf; rw [hcu]; simp [applyUpdate, hf]
      · intro hf; rw [hcu]; simp [applyUpdate, hf]
      · intro hf; rw [hcu]; simp [applyUpdate, hf]

/-- C9 witness: the frame specification holds concretely for the pause
patch applied to the sample state. -/
theorem C9_update_frame_witness :
    UpdateFrameSpec demoState "1" demoUpdate demoUpdatedCourse
      (MockState.mk [demoUpdatedCourse] demoPrefs) :=
  C9_update_frame demoState "1" demoUpdate demoUpdatedCourse
    (MockState.mk [demoUpdatedCourse] demoPrefs) rfl

/-- Helper: one `fetchWithCache` call makes at most one network call. -/
theorem fetchWithCache_calls_le_one {α : Type} (ttl : Nat)
    (upstream : UpstreamClient.CacheKey → α)
    (cache : List (UpstreamClient.CacheKey × Nat × α)) (k : UpstreamClient.CacheKey)
    (now : Nat) :
    (UpstreamClient.fetchWithCache ttl upstream cache k now).2.2 ≤ 1 := by
  unfold UpstreamClient.fetchWithCache
  cases h : cache.find? (fun e => decide (e.1 = k)) with
  | none => simp
  | some e =>
      obtain ⟨k2, t, v⟩ := e
      by_cases hc : now < t + ttl <;> simp [hc]

/-- C5: two `fetchWithCache` calls for the same key whose second call
falls inside the TTL window of the first issue at most one network call
in total, and when the key is not initially cached the second call
returns exactly the value the first call fetched and cached, with no
network call of its own. -/
theorem C5_cache_single_network_call {α : Type} (ttl : Nat)
    (upstream : UpstreamClient.CacheKey → α)
    (cache : List (UpstreamClient.CacheKey × Nat × α)) (k : UpstreamClient.CacheKey)
    (t0 t1 : Nat) (h1 : t1 < t0 + ttl) :
    CacheSingleCallSpec ttl upstream cache k t0 t1 := by
  have hmiss : ∀ (c2 : List (UpstreamClient.CacheKey × Nat × α)),
      UpstreamClient.fetchWithCache ttl upstream ((k, t0, upstream k) :: c2) k t1
        = (upstream k, (k, t0, upstream k) :: c2, 0) := by
    intro c2
    unfold UpstreamClient.fetchWithCache
    rw [List.find?_cons_of_pos _ (by simp)]
    simp [h1]
  unfold CacheSingleCallSpec
  constructor
  · cases h : cache.find? (fun e => decide (e.1 = k)) with
    | none =>
        have e1 : UpstreamClient.fetchWithCache ttl upstream cache k t0
            = (upstream k, (k, t0, upstream k) :: cache, 1) := by
          unfold UpstreamClient.fetchWithCache
          rw [h]
        rw [e1]
        simp [hmiss cache]
    | some e =>
        obtain ⟨k2, t, v⟩ := e
        by_cases hc : t0 < t + ttl
        · have e1 : UpstreamClient.fetchWithCache ttl upstream cache k t0
              = (v, cache, 0) := by
            unfold UpstreamClient.fetchWithCache
            rw [h]
            simp [hc]
          rw [e1]
          simpa using fetchWithCache_calls_le_one ttl upstream cache k t1
        · have e1 : UpstreamClient.fetchWithCache ttl upstream cache k t0
              = (upstream k, (k, t0, upstream k) :: cache, 1) := by
            unfold UpstreamClient.fetchWithCache
            rw [h]
            simp [hc]
          rw [e1]
          simp [hmiss cache]
  · intro h0
    have e1 : UpstreamClient.fetchWithCache ttl upstream cache k t0
        = (upstream k, (k, t0, upstream k) :: cache, 1) := by
      unfold UpstreamClient.fetchWithCache
      rw [h0]
    rw [e1]
    simp [hmiss cache]

/-- C5 witness: starting from an empty cache with a 60 s TTL, a fetch at
t=0 ms followed by one at t=1000 ms makes at most one network call, and
the second fetch returns the value cached by the first without a network
call. -/
theorem C5_cache_single_network_call_witness :
    CacheSingleCallSpec 60000 (fun _ => (0 : Nat)) []
      ⟨"1252", "COMP SCI", "400"⟩ 0 1000 :=
  C5_cache_single_network_call 60000 (fun _ => (0 : Nat)) []
    ⟨"1252", "COMP SCI", "400"⟩ 0 1000 (by decide)
